import Mathlib

/-!
# sample-node: the request router of `examples/sample-node/index.js`

The program is one HTTP request listener over two process-wide variables,
`started` (the clock reading taken when the module is loaded) and `counter`
(initially `0`).  The listener compares `req.url` with three string literals
and answers with `res.writeHead` followed by `res.end(JSON.stringify(..))`.

Embedding.
* The two variables form the record `State`; the listener is a function from the
  state before a request to the response and the state after it.
* The listener reads the host clock once per request (`Date.now()` in the ready
  branch, `new Date()` in the greeting branch); the reading is the argument
  `now`, in milliseconds, an integer.  Nothing in the source relates one reading
  to another or to `started`, so none of the definitions does either.
* `Date.prototype.toISOString` belongs to the language runtime; it is the
  parameter `iso`.
* The source's numbers are IEEE doubles.  `counter` starts at `0` and is only ever
  changed by `++counter`; that increment is exact up to `2 ^ 53` and rounds
  `2 ^ 53 + 1` back to `2 ^ 53`, so the variable holds the integers `0` to `2 ^ 53`
  and no others.  `State` holds exactly these values and `incrementCounter` is the
  rounded increment.  Clock readings are integers of milliseconds, far inside the
  exact range, and so are their differences.
* The object handed to `JSON.stringify` is kept as the response body (`Json`, an
  ordered list of key/value pairs); `stringify` gives its text.
-/

namespace SampleNode

/-! ## Data model -/

/-- The integer `2 ^ 53`: the last value `++counter` reaches, since the double
`2 ^ 53 + 1` does not exist and the sum rounds to the even neighbour `2 ^ 53`. -/
def maxCounter : Nat := 9007199254740992

/-- The process-wide variables `started` and `counter`; `counter` ranges over the
values the variable can hold. -/
structure State where
  started : Int
  counter : Nat
  counter_le : counter ≤ maxCounter := by decide
  deriving DecidableEq

/-- The two fields of `req` an HTTP listener can route on; the source reads only `url`. -/
structure Request where
  method : String
  url : String
  deriving DecidableEq

/-- Values that occur in the three object literals of the source. -/
inductive JVal where
  | str (s : String)
  | num (n : Int)
  deriving DecidableEq

/-- An object literal: its keys with their values, in the order written. -/
abbrev Json := List (String × JVal)

/-- What `res.writeHead(status, headers)` and `res.end(JSON.stringify(body))` send. -/
structure Response where
  status : Nat
  headers : List (String × String)
  body : Json
  deriving DecidableEq

/-- The state after `let started = Date.now(); let counter = 0;` at clock reading `t0`. -/
def initial (t0 : Int) : State :=
  { started := t0, counter := 0 }

/-- The header object literal used by all three `writeHead` calls. -/
def jsonHeaders : List (String × String) :=
  [("Content-Type", "application/json")]

/-! ## The request listener -/

/-- The effect of `++counter` on the state: below `2 ^ 53` the sum is exact and is
stored; at `2 ^ 53` the sum rounds to `2 ^ 53` and the variable keeps its value. -/
def incrementCounter (st : State) : State :=
  if h : st.counter < maxCounter then
    { started := st.started, counter := st.counter + 1, counter_le := h }
  else st

/-- The listener passed to `http.createServer`, branch by branch as in the source:
`req.url === '/ready'`, then `req.url === '/' || req.url === '/healthz'`, then the
fall-through.  `++counter` stores the incremented value and yields the stored value. -/
def handler (iso : Int → String) (st : State) (req : Request) (now : Int) :
    Response × State :=
  if req.url = "/ready" then
    ({ status := 200, headers := jsonHeaders,
       body := [("status", .str "ok"), ("uptime_ms", .num (now - st.started))] },
     st)
  else if req.url = "/" ∨ req.url = "/healthz" then
    let st1 : State := incrementCounter st
    ({ status := 200, headers := jsonHeaders,
       body := [("message", .str "hello"), ("counter", .num st1.counter),
                ("time", .str (iso now))] },
     st1)
  else
    ({ status := 404, headers := jsonHeaders,
       body := [("error", .str "not_found")] },
     st)

/-- The single-threaded host: requests are handled one after another, each to
completion, every one with its own clock reading.  Returns the responses in the
order of handling and the final state. -/
def serve (iso : Int → String) : State → List (Request × Int) → List Response × State
  | st, [] => ([], st)
  | st, (req, now) :: rest =>
    let step := handler iso st req now
    let tail := serve iso step.2 rest
    (step.1 :: tail.1, tail.2)

/-- The states the process goes through while serving: the state before the first
request, then the state after each request. -/
def states (iso : Int → String) : State → List (Request × Int) → List State
  | st, [] => [st]
  | st, (req, now) :: rest => st :: states iso (handler iso st req now).2 rest

/-- The four requests of the end-to-end scenario of the specification, under any methods, at clock readings `t1` to `t4`. -/
def scenario (m1 m2 m3 m4 : String) (t1 t2 t3 t4 : Int) : List (Request × Int) :=
  [({ method := m1, url := "/" }, t1), ({ method := m2, url := "/healthz" }, t2),
   ({ method := m3, url := "/ready" }, t3), ({ method := m4, url := "/unknown" }, t4)]

/-! ## Reading a response -/

/-- The keys of an object, in order. -/
def keys (o : Json) : List String :=
  o.map Prod.fst

/-- The value stored under a key, if the object has the key. -/
def field (o : Json) (k : String) : Option JVal :=
  (o.find? fun kv => kv.1 == k).map Prod.snd

/-- The request targets of the greeting route. -/
def isGreeting (req : Request) : Bool :=
  decide (req.url = "/" ∨ req.url = "/healthz")

/-! ## The text of a body -/

/-- Lower-case hexadecimal digit of a number below sixteen. -/
def hexDigit (n : Nat) : Char :=
  if n < 10 then Char.ofNat (48 + n) else Char.ofNat (87 + n)

/-- One character of a JSON string as `JSON.stringify` writes it: the quote and the
backslash get a backslash, the control characters their short or `\u00xx` form. -/
def escapeChar (c : Char) : String :=
  if c.toNat = 34 then "\\\""
  else if c.toNat = 92 then "\\\\"
  else if c.toNat = 8 then "\\b"
  else if c.toNat = 12 then "\\f"
  else if c.toNat = 10 then "\\n"
  else if c.toNat = 13 then "\\r"
  else if c.toNat = 9 then "\\t"
  else if c.toNat < 32 then
    "\\u00" ++ String.singleton (hexDigit (c.toNat / 16))
      ++ String.singleton (hexDigit (c.toNat % 16))
  else String.singleton c

/-- A string between double quotes, escaped. -/
def quote (s : String) : String :=
  "\"" ++ String.join (s.toList.map escapeChar) ++ "\""

/-- The text of a value.  An integer of magnitude up to `2 ^ 53` is written with all
its decimal digits; beyond that the runtime writes the digits of the nearest double,
and no text is given here. -/
def JVal.text : JVal → Option String
  | .str s => some (quote s)
  | .num n => if n.natAbs ≤ maxCounter then some (toString n) else none

/-- The members of an object, each as `"key":value`, in order. -/
def members : Json → Option (List String)
  | [] => some []
  | (k, v) :: rest =>
    match v.text, members rest with
    | some t, some ts => some ((quote k ++ ":" ++ t) :: ts)
    | _, _ => none

/-- The text `JSON.stringify` gives for an object with string and integer values. -/
def stringify (o : Json) : Option String :=
  (members o).map fun ms => "\x7b" ++ ",".intercalate ms ++ "\x7d"

/-- The `counter` number of a greeting body. -/
def counterOf (r : Response) : Option Int :=
  match field r.body "counter" with
  | some (.num n) => some n
  | _ => none

/-- The `uptime_ms` number of a ready body. -/
def uptimeOf (r : Response) : Option Int :=
  match field r.body "uptime_ms" with
  | some (.num n) => some n
  | _ => none

/-! ## The three branches -/

theorem handler_ready (iso : Int → String) (st : State) (req : Request) (now : Int)
    (h : req.url = "/ready") :
    handler iso st req now =
      ({ status := 200, headers := jsonHeaders,
         body := [("status", .str "ok"), ("uptime_ms", .num (now - st.started))] }, st) := by
  simp [handler, h]

theorem incrementCounter_started (st : State) :
    (incrementCounter st).started = st.started := by
  unfold incrementCounter
  split <;> rfl

theorem incrementCounter_counter (st : State) :
    (incrementCounter st).counter = min (st.counter + 1) maxCounter := by
  have hle := st.counter_le
  unfold incrementCounter
  split
  · show st.counter + 1 = _
    omega
  · omega

theorem incrementCounter_of_lt (st : State) (h : st.counter < maxCounter) :
    (incrementCounter st).counter = st.counter + 1 := by
  rw [incrementCounter_counter]
  omega

theorem handler_greeting (iso : Int → String) (st : State) (req : Request) (now : Int)
    (h : req.url = "/" ∨ req.url = "/healthz") :
    handler iso st req now =
      ({ status := 200, headers := jsonHeaders,
         body := [("message", .str "hello"),
                  ("counter", .num ((incrementCounter st).counter : Int)),
                  ("time", .str (iso now))] },
       incrementCounter st) := by
  have hr : req.url ≠ "/ready" := by
    rcases h with h | h <;> rw [h] <;> decide
  simp [handler, hr, h]

theorem handler_other (iso : Int → String) (st : State) (req : Request) (now : Int)
    (h1 : req.url ≠ "/ready") (h2 : req.url ≠ "/") (h3 : req.url ≠ "/healthz") :
    handler iso st req now =
      ({ status := 404, headers := jsonHeaders, body := [("error", .str "not_found")] },
       st) := by
  simp [handler, h1, h2, h3]

theorem isGreeting_iff (req : Request) :
    isGreeting req = true ↔ req.url = "/" ∨ req.url = "/healthz" := by
  simp [isGreeting]

theorem stringify_not_found :
    stringify [("error", .str "not_found")] = some "\x7b\"error\":\"not_found\"\x7d" := by
  decide

/-- C1. A request whose target is none of `/`, `/ready`, `/healthz` (the empty target
included) is answered with status 404 and the body `{"error":"not_found"}`, as an
object and as text; the listener, a total function, has no other outcome there, and
the state, hence the counter, is the one before the request. -/
theorem unmatched_is_not_found (iso : Int → String) (st : State) (req : Request) (now : Int)
    (h1 : req.url ≠ "/") (h2 : req.url ≠ "/ready") (h3 : req.url ≠ "/healthz") :
    (handler iso st req now).1.status = 404 ∧
    (handler iso st req now).1.body = [("error", .str "not_found")] ∧
    stringify (handler iso st req now).1.body = some "\x7b\"error\":\"not_found\"\x7d" ∧
    (handler iso st req now).2.counter = st.counter ∧
    (handler iso st req now).2 = st := by
  rw [handler_other iso st req now h2 h1 h3]
  exact ⟨rfl, rfl, stringify_not_found, rfl, rfl⟩

/-- Witness of C1 at the empty request target. -/
theorem unmatched_is_not_found_witness :
    (({ method := "GET", url := "" } : Request).url ≠ "/" ∧
     ({ method := "GET", url := "" } : Request).url ≠ "/ready" ∧
     ({ method := "GET", url := "" } : Request).url ≠ "/healthz") ∧
    (handler (fun t => toString t) { started := 1000, counter := 7 }
        { method := "GET", url := "" } 2000).1.status = 404 ∧
    (handler (fun t => toString t) { started := 1000, counter := 7 }
        { method := "GET", url := "" } 2000).1.body = [("error", .str "not_found")] ∧
    stringify (handler (fun t => toString t) { started := 1000, counter := 7 }
        { method := "GET", url := "" } 2000).1.body
      = some "\x7b\"error\":\"not_found\"\x7d" ∧
    (handler (fun t => toString t) { started := 1000, counter := 7 }
        { method := "GET", url := "" } 2000).2.counter = 7 ∧
    (handler (fun t => toString t) { started := 1000, counter := 7 }
        { method := "GET", url := "" } 2000).2 = { started := 1000, counter := 7 } :=
  ⟨⟨by decide, by decide, by decide⟩,
   unmatched_is_not_found (fun t => toString t) { started := 1000, counter := 7 }
     { method := "GET", url := "" } 2000 (by decide) (by decide) (by decide)⟩

/-- C2, as the listener behaves. In a state whose counter `c` is below `2 ^ 53`, the
targets `/` and `/healthz`, under any method, are answered with status 200, the
counter of the state afterwards is `c + 1`, and the `counter` field of the body is
`c + 1`, not `c`. -/
theorem greeting_counts_after_increment (iso : Int → String) (st : State) (m : String)
    (now : Int) (h : st.counter < maxCounter) :
    ((handler iso st { method := m, url := "/" } now).1.status = 200 ∧
     (handler iso st { method := m, url := "/" } now).2.counter = st.counter + 1 ∧
     field (handler iso st { method := m, url := "/" } now).1.body "counter"
       = some (.num ((st.counter : Int) + 1)) ∧
     field (handler iso st { method := m, url := "/" } now).1.body "counter"
       ≠ some (.num (st.counter : Int))) ∧
    ((handler iso st { method := m, url := "/healthz" } now).1.status = 200 ∧
     (handler iso st { method := m, url := "/healthz" } now).2.counter = st.counter + 1 ∧
     field (handler iso st { method := m, url := "/healthz" } now).1.body "counter"
       = some (.num ((st.counter : Int) + 1)) ∧
     field (handler iso st { method := m, url := "/healthz" } now).1.body "counter"
       ≠ some (.num (st.counter : Int))) := by
  have hc := incrementCounter_of_lt st h
  constructor
  · rw [handler_greeting iso st { method := m, url := "/" } now (Or.inl rfl)]
    refine ⟨rfl, hc, ?_, ?_⟩ <;> simp [field, hc]
  · rw [handler_greeting iso st { method := m, url := "/healthz" } now (Or.inr rfl)]
    refine ⟨rfl, hc, ?_, ?_⟩ <;> simp [field, hc]

/-- Witness of C2 as amended: a `POST` to `/` and to `/healthz` from counter 7. -/
theorem greeting_counts_after_increment_witness :
    (({ started := 1000, counter := 7 } : State).counter < maxCounter) ∧
    (handler (fun t => toString t) { started := 1000, counter := 7 }
        { method := "POST", url := "/" } 2000).2.counter = 7 + 1 ∧
    field (handler (fun t => toString t) { started := 1000, counter := 7 }
        { method := "POST", url := "/healthz" } 2000).1.body "counter"
      = some (.num ((7 : Nat) + 1)) :=
  ⟨by decide,
   (greeting_counts_after_increment (fun t => toString t) { started := 1000, counter := 7 }
      "POST" 2000 (by decide)).1.2.1,
   (greeting_counts_after_increment (fun t => toString t) { started := 1000, counter := 7 }
      "POST" 2000 (by decide)).2.2.2.1⟩

/-- C2 as stated fails: in the state with counter `2 ^ 53` a request to `/` is answered
200, but the counter afterwards is still `2 ^ 53`, not `2 ^ 53 + 1`, and the body
carries `2 ^ 53`, the value before the increment. -/
theorem greeting_at_limit_counterexample :
    (handler (fun t => toString t) { started := 0, counter := 9007199254740992 }
        { method := "GET", url := "/" } 5).1.status = 200 ∧
    (handler (fun t => toString t) { started := 0, counter := 9007199254740992 }
        { method := "GET", url := "/" } 5).2.counter = 9007199254740992 ∧
    (handler (fun t => toString t) { started := 0, counter := 9007199254740992 }
        { method := "GET", url := "/" } 5).2.counter ≠ 9007199254740992 + 1 ∧
    field (handler (fun t => toString t) { started := 0, counter := 9007199254740992 }
        { method := "GET", url := "/" } 5).1.body "counter"
      = some (.num 9007199254740992) := by
  decide

/-- C3. A `/ready` request handled at clock reading `t` in a state with start reading
`s` is answered with status 200 and a body whose `status` is `"ok"` and whose
`uptime_ms` is `t - s`. -/
theorem ready_reports_uptime (iso : Int → String) (st : State) (m : String) (t : Int) :
    (handler iso st { method := m, url := "/ready" } t).1.status = 200 ∧
    field (handler iso st { method := m, url := "/ready" } t).1.body "status"
      = some (.str "ok") ∧
    field (handler iso st { method := m, url := "/ready" } t).1.body "uptime_ms"
      = some (.num (t - st.started)) := by
  rw [handler_ready iso st { method := m, url := "/ready" } t rfl]
  refine ⟨rfl, ?_, ?_⟩ <;> simp [field]

/-- C4. Every response carries exactly the header `Content-Type: application/json`, and
its body is one object whose keys are those of the branch taken: `status`, `uptime_ms`
for `/ready`; `message`, `counter`, `time` for `/` and `/healthz`; `error` otherwise;
no key occurs twice. -/
theorem response_shape (iso : Int → String) (st : State) (req : Request) (now : Int) :
    ("Content-Type", "application/json") ∈ (handler iso st req now).1.headers ∧
    (handler iso st req now).1.headers = [("Content-Type", "application/json")] ∧
    keys (handler iso st req now).1.body =
      (if req.url = "/ready" then ["status", "uptime_ms"]
       else if req.url = "/" ∨ req.url = "/healthz" then ["message", "counter", "time"]
       else ["error"]) ∧
    (keys (handler iso st req now).1.body).Nodup := by
  by_cases hr : req.url = "/ready"
  · rw [handler_ready iso st req now hr]
    simp [jsonHeaders, keys, hr]
  · by_cases hg : req.url = "/" ∨ req.url = "/healthz"
    · rw [handler_greeting iso st req now hg]
      simp [jsonHeaders, keys, hr, hg]
    · have h2 : req.url ≠ "/" := fun h => hg (Or.inl h)
      have h3 : req.url ≠ "/healthz" := fun h => hg (Or.inr h)
      rw [handler_other iso st req now hr h2 h3]
      simp [jsonHeaders, keys, hr, h2, h3]

/-! ## Effect of one request on the state -/

theorem handler_state (iso : Int → String) (st : State) (req : Request) (now : Int) :
    (handler iso st req now).2 =
      if isGreeting req = true then incrementCounter st else st := by
  by_cases hr : req.url = "/ready"
  · have hg : isGreeting req = false := by simp [isGreeting, hr]
    rw [handler_ready iso st req now hr, hg]
    simp
  · by_cases hg : req.url = "/" ∨ req.url = "/healthz"
    · rw [handler_greeting iso st req now hg, (isGreeting_iff req).2 hg]
      simp
    · have hb : isGreeting req = false := by
        cases hv : isGreeting req
        · rfl
        · exact absurd ((isGreeting_iff req).1 hv) hg
      rw [handler_other iso st req now hr (fun h => hg (Or.inl h)) (fun h => hg (Or.inr h)), hb]
      simp

theorem handler_counter (iso : Int → String) (st : State) (req : Request) (now : Int) :
    (handler iso st req now).2.counter
      = min (st.counter + if isGreeting req = true then 1 else 0) maxCounter := by
  have hle := st.counter_le
  rw [handler_state]
  split
  · rw [incrementCounter_counter]
  · omega

theorem handler_counter_le (iso : Int → String) (st : State) (req : Request) (now : Int) :
    st.counter ≤ (handler iso st req now).2.counter := by
  have hle := st.counter_le
  rw [handler_counter]
  split <;> omega

theorem handler_started (iso : Int → String) (st : State) (req : Request) (now : Int) :
    (handler iso st req now).2.started = st.started := by
  rw [handler_state]
  split
  · exact incrementCounter_started st
  · rfl

/-! ## Sequences of requests -/

theorem states_head (iso : Int → String) (st : State) (reqs : List (Request × Int)) :
    (states iso st reqs).head? = some st := by
  cases reqs with
  | nil => rfl
  | cons r rest => rfl

theorem states_chain (iso : Int → String) (st : State) (reqs : List (Request × Int)) :
    List.Chain' (fun a b : State => a.counter ≤ b.counter) (states iso st reqs) := by
  induction reqs generalizing st with
  | nil => simp [states]
  | cons r rest ih =>
    obtain ⟨req, now⟩ := r
    simp only [states]
    refine List.Chain'.cons' (ih _) ?_
    intro y hy
    rw [states_head] at hy
    cases hy
    exact handler_counter_le iso st req now

theorem states_getLast (iso : Int → String) (st : State) (reqs : List (Request × Int)) :
    (states iso st reqs).getLast? = some (serve iso st reqs).2 := by
  induction reqs generalizing st with
  | nil => rfl
  | cons r rest ih =>
    obtain ⟨req, now⟩ := r
    simp only [states, serve]
    rw [List.getLast?_cons, ih]
    rfl

theorem serve_counter (iso : Int → String) (st : State) (reqs : List (Request × Int)) :
    (serve iso st reqs).2.counter
      = min (st.counter + reqs.countP (fun r => isGreeting r.1)) maxCounter := by
  induction reqs generalizing st with
  | nil =>
    have hle := st.counter_le
    simp only [serve, List.countP_nil]
    omega
  | cons r rest ih =>
    obtain ⟨req, now⟩ := r
    simp only [serve]
    rw [ih, handler_counter, List.countP_cons]
    simp only
    split <;> omega

theorem serve_length (iso : Int → String) (st : State) (reqs : List (Request × Int)) :
    (serve iso st reqs).1.length = reqs.length := by
  induction reqs generalizing st with
  | nil => rfl
  | cons r rest ih =>
    obtain ⟨req, now⟩ := r
    simp [serve, ih]

/-- C5, as the listener behaves. From the initial state, whose counter is `0`, the
counter never decreases from one state of the run to the next, and after the whole
sequence it equals the number of requests of the sequence whose target is `/` or
`/healthz`, capped at `2 ^ 53`, where the increment stops: it is that number whenever
the number is at most `2 ^ 53`. -/
theorem counter_monotone_and_exact (iso : Int → String) (t0 : Int)
    (reqs : List (Request × Int)) :
    (initial t0).counter = 0 ∧
    List.Chain' (fun a b : State => a.counter ≤ b.counter) (states iso (initial t0) reqs) ∧
    (states iso (initial t0) reqs).getLast? = some (serve iso (initial t0) reqs).2 ∧
    (serve iso (initial t0) reqs).2.counter
      = min (reqs.countP (fun r => decide (r.1.url = "/" ∨ r.1.url = "/healthz")))
          maxCounter ∧
    (reqs.countP (fun r => decide (r.1.url = "/" ∨ r.1.url = "/healthz")) ≤ maxCounter →
      (serve iso (initial t0) reqs).2.counter
        = reqs.countP (fun r => decide (r.1.url = "/" ∨ r.1.url = "/healthz"))) := by
  have hfinal : (serve iso (initial t0) reqs).2.counter
      = min (reqs.countP (fun r => decide (r.1.url = "/" ∨ r.1.url = "/healthz")))
          maxCounter := by
    rw [serve_counter]
    simp [initial, isGreeting]
  refine ⟨rfl, states_chain iso _ reqs, states_getLast iso _ reqs, hfinal, ?_⟩
  intro hle
  rw [hfinal]
  omega

/-- Witness of C5 as amended: `/`, `/ready`, `/healthz`, `/nope`, `/` from a fresh
process leave the counter at 3. -/
theorem counter_monotone_and_exact_witness :
    (serve (fun t => toString t) (initial 1000)
        [({ method := "GET", url := "/" }, 1001), ({ method := "GET", url := "/ready" }, 1002),
         ({ method := "GET", url := "/healthz" }, 1003),
         ({ method := "GET", url := "/nope" }, 1004),
         ({ method := "GET", url := "/" }, 1005)]).2.counter
      = [(({ method := "GET", url := "/" } : Request), (1001 : Int)),
         ({ method := "GET", url := "/ready" }, 1002),
         ({ method := "GET", url := "/healthz" }, 1003),
         ({ method := "GET", url := "/nope" }, 1004),
         ({ method := "GET", url := "/" }, 1005)].countP
          (fun r => decide (r.1.url = "/" ∨ r.1.url = "/healthz")) :=
  (counter_monotone_and_exact (fun t => toString t) 1000
      [({ method := "GET", url := "/" }, 1001), ({ method := "GET", url := "/ready" }, 1002),
       ({ method := "GET", url := "/healthz" }, 1003),
       ({ method := "GET", url := "/nope" }, 1004),
       ({ method := "GET", url := "/" }, 1005)]).2.2.2.2 (by decide)

/-- C5 as stated fails: after `2 ^ 53 + 1` requests to `/` from a fresh process the
counter is `2 ^ 53`, one less than the number of greeting requests handled. -/
theorem counter_saturates_counterexample :
    (List.replicate (9007199254740992 + 1)
        (({ method := "GET", url := "/" } : Request), (0 : Int))).countP
      (fun r => decide (r.1.url = "/" ∨ r.1.url = "/healthz")) = 9007199254740992 + 1 ∧
    (serve (fun t => toString t) (initial 0)
        (List.replicate (9007199254740992 + 1)
          (({ method := "GET", url := "/" } : Request), (0 : Int)))).2.counter
      = 9007199254740992 ∧
    (serve (fun t => toString t) (initial 0)
        (List.replicate (9007199254740992 + 1)
          (({ method := "GET", url := "/" } : Request), (0 : Int)))).2.counter
      ≠ (List.replicate (9007199254740992 + 1)
          (({ method := "GET", url := "/" } : Request), (0 : Int))).countP
        (fun r => decide (r.1.url = "/" ∨ r.1.url = "/healthz")) := by
  have hcount : (List.replicate (9007199254740992 + 1)
        (({ method := "GET", url := "/" } : Request), (0 : Int))).countP
      (fun r => decide (r.1.url = "/" ∨ r.1.url = "/healthz")) = 9007199254740992 + 1 := by
    rw [List.countP_eq_length.2, List.length_replicate]
    intro r hr
    rw [List.eq_of_mem_replicate hr]
    decide
  have hfinal : (serve (fun t => toString t) (initial 0)
        (List.replicate (9007199254740992 + 1)
          (({ method := "GET", url := "/" } : Request), (0 : Int)))).2.counter
      = 9007199254740992 := by
    have hc : (List.replicate (9007199254740992 + 1)
          (({ method := "GET", url := "/" } : Request), (0 : Int))).countP
        (fun r => isGreeting r.1) = 9007199254740992 + 1 := hcount
    rw [serve_counter, hc]
    decide
  refine ⟨hcount, hfinal, ?_⟩
  rw [hfinal, hcount]
  decide

theorem serve_root_counters (iso : Int → String) (st : State) (reqs : List (Request × Int))
    (h : ∀ r ∈ reqs, r.1.url = "/") (hb : st.counter + reqs.length ≤ maxCounter) :
    (serve iso st reqs).1.map counterOf
      = (List.range' (st.counter + 1) reqs.length).map fun n : Nat => some (n : Int) := by
  induction reqs generalizing st with
  | nil => rfl
  | cons r rest ih =>
    obtain ⟨req, now⟩ := r
    have hreq : req.url = "/" := h (req, now) (List.mem_cons_self _ _)
    have hrest : ∀ r ∈ rest, r.1.url = "/" := fun r hr => h r (List.mem_cons_of_mem _ hr)
    rw [List.length_cons] at hb
    have hinc : (incrementCounter st).counter = st.counter + 1 :=
      incrementCounter_of_lt st (by omega)
    have hstep := handler_greeting iso st req now (Or.inl hreq)
    have hnext : ((handler iso st req now).2).counter + rest.length ≤ maxCounter := by
      rw [hstep]
      show (incrementCounter st).counter + rest.length ≤ maxCounter
      omega
    simp only [serve, List.map_cons, List.length_cons, List.range'_succ]
    rw [ih _ hrest hnext, hstep]
    simp [counterOf, field, hinc]

/-- C6, as the listener behaves. `N` requests to `/`, handled one at a time in whatever
order the host delivers them, from a state with counter `c` where `c + N` is at most
`2 ^ 53`: the responses carry the `counter` values `c + 1, ..., c + N` in the order of
handling, so they are pairwise distinct and form exactly that range, and the counter
ends at `c + N`. -/
theorem concurrent_root_requests (iso : Int → String) (st : State)
    (reqs : List (Request × Int)) (h : ∀ r ∈ reqs, r.1.url = "/")
    (hb : st.counter + reqs.length ≤ maxCounter) :
    (serve iso st reqs).1.length = reqs.length ∧
    (serve iso st reqs).1.map counterOf
      = (List.range' (st.counter + 1) reqs.length).map (fun n : Nat => some (n : Int)) ∧
    ((serve iso st reqs).1.map counterOf).Nodup ∧
    (∀ v : Int, some v ∈ (serve iso st reqs).1.map counterOf ↔
      (st.counter : Int) + 1 ≤ v ∧ v ≤ (st.counter : Int) + reqs.length) ∧
    (∀ order : List (Request × Int), order.Perm reqs →
      (serve iso st order).1.map counterOf = (serve iso st reqs).1.map counterOf) ∧
    (serve iso st reqs).2.counter = st.counter + reqs.length := by
  have hinj : Function.Injective (fun n : Nat => some (n : Int)) := by
    intro a b hab
    simpa using hab
  refine ⟨serve_length iso st reqs, serve_root_counters iso st reqs h hb, ?_, ?_, ?_, ?_⟩
  · rw [serve_root_counters iso st reqs h hb]
    exact (List.nodup_range' _ _).map hinj
  · intro v
    rw [serve_root_counters iso st reqs h hb]
    simp only [List.mem_map, List.mem_range'_1, Option.some.injEq]
    constructor
    · rintro ⟨n, ⟨h1, h2⟩, rfl⟩
      omega
    · rintro ⟨h1, h2⟩
      refine ⟨v.toNat, ⟨?_, ?_⟩, ?_⟩ <;> omega
  · intro order hperm
    have horder : ∀ r ∈ order, r.1.url = "/" := fun r hr => h r (hperm.mem_iff.1 hr)
    rw [serve_root_counters iso st order horder (by rw [hperm.length_eq]; exact hb),
      serve_root_counters iso st reqs h hb, hperm.length_eq]
  · have hall : reqs.countP (fun r => isGreeting r.1) = reqs.length := by
      rw [List.countP_eq_length]
      intro r hr
      simp [isGreeting, h r hr]
    rw [serve_counter, hall]
    omega

/-- Witness of C6 as amended: three requests to `/` under different methods, from
counter 4. -/
theorem concurrent_root_requests_witness :
    ((∀ r ∈ [(({ method := "GET", url := "/" } : Request), (10 : Int)),
            ({ method := "POST", url := "/" }, 10), ({ method := "HEAD", url := "/" }, 11)],
        r.1.url = "/") ∧
     ({ started := 0, counter := 4 } : State).counter
       + [(({ method := "GET", url := "/" } : Request), (10 : Int)),
          ({ method := "POST", url := "/" }, 10),
          ({ method := "HEAD", url := "/" }, 11)].length ≤ maxCounter) ∧
    (serve (fun t => toString t) { started := 0, counter := 4 }
        [({ method := "GET", url := "/" }, 10), ({ method := "POST", url := "/" }, 10),
         ({ method := "HEAD", url := "/" }, 11)]).1.map counterOf
      = [some 5, some 6, some 7] :=
  ⟨⟨by decide, by decide⟩,
   (concurrent_root_requests (fun t => toString t) { started := 0, counter := 4 }
      [({ method := "GET", url := "/" }, 10), ({ method := "POST", url := "/" }, 10),
       ({ method := "HEAD", url := "/" }, 11)] (by decide) (by decide)).2.1⟩

/-- C6 as stated fails: two requests to `/` from the state with counter `2 ^ 53` are
both answered with `counter` `2 ^ 53`: the two values are equal, neither is above the
counter before the requests, and the counter has not moved. -/
theorem concurrent_at_limit_counterexample :
    (serve (fun t => toString t) { started := 0, counter := 9007199254740992 }
        [({ method := "GET", url := "/" }, 10), ({ method := "GET", url := "/" }, 10)]).1.map
        counterOf
      = [some 9007199254740992, some 9007199254740992] ∧
    ¬ ((serve (fun t => toString t) { started := 0, counter := 9007199254740992 }
        [({ method := "GET", url := "/" }, 10), ({ method := "GET", url := "/" }, 10)]).1.map
        counterOf).Nodup ∧
    (serve (fun t => toString t) { started := 0, counter := 9007199254740992 }
        [({ method := "GET", url := "/" }, 10), ({ method := "GET", url := "/" }, 10)]).2.counter
      = 9007199254740992 := by
  decide

/-- C7. Only the greeting branch writes the state, and only its counter: every request
leaves `started` as it was; a request whose target is neither `/` nor `/healthz` (a
`/ready` request or an unmatched one) leaves the whole state as it was; a greeting
request leaves the state that `++counter` gives, with `started` as it was; and any
number of `/ready` requests in a row leaves the state, hence the counter, as it was. -/
theorem only_greeting_writes_counter (iso : Int → String) (st : State) (req : Request)
    (now : Int) :
    (handler iso st req now).2.started = st.started ∧
    (req.url ≠ "/" ∧ req.url ≠ "/healthz" → (handler iso st req now).2 = st) ∧
    (req.url = "/" ∨ req.url = "/healthz" →
      (handler iso st req now).2 = incrementCounter st ∧
      (handler iso st req now).2.started = st.started ∧
      (st.counter < maxCounter → (handler iso st req now).2.counter = st.counter + 1)) ∧
    (∀ readies : List (Request × Int), (∀ r ∈ readies, r.1.url = "/ready") →
      (serve iso st readies).2 = st ∧ (serve iso st readies).2.counter = st.counter) := by
  refine ⟨handler_started iso st req now, ?_, ?_, ?_⟩
  · rintro ⟨h2, h3⟩
    rw [handler_state]
    simp [isGreeting, h2, h3]
  · intro hg
    have hs : (handler iso st req now).2 = incrementCounter st := by
      rw [handler_state, (isGreeting_iff req).2 hg]
      simp
    refine ⟨hs, handler_started iso st req now, fun hlt => ?_⟩
    rw [hs]
    exact incrementCounter_of_lt st hlt
  · intro readies
    induction readies with
    | nil => intro _; exact ⟨rfl, rfl⟩
    | cons r rest ih =>
      intro hall
      obtain ⟨rq, t⟩ := r
      have hrq : rq.url = "/ready" := hall (rq, t) (List.mem_cons_self _ _)
      have hstep : (handler iso st rq t).2 = st := by
        rw [handler_ready iso st rq t hrq]
      have hrest := ih fun r hr => hall r (List.mem_cons_of_mem _ hr)
      simp only [serve]
      rw [hstep]
      exact hrest

/-- Witness of C7: a `/ready` request, then three `/ready` requests in a row, from a
state with counter 2. -/
theorem only_greeting_writes_counter_witness :
    (handler (fun t => toString t) { started := 100, counter := 2 }
        { method := "GET", url := "/ready" } 150).2 = { started := 100, counter := 2 } ∧
    (serve (fun t => toString t) { started := 100, counter := 2 }
        [({ method := "GET", url := "/ready" }, 150), ({ method := "GET", url := "/ready" }, 160),
         ({ method := "GET", url := "/ready" }, 170)]).2.counter = 2 :=
  ⟨(only_greeting_writes_counter (fun t => toString t) { started := 100, counter := 2 }
      { method := "GET", url := "/ready" } 150).2.1 ⟨by decide, by decide⟩,
   ((only_greeting_writes_counter (fun t => toString t) { started := 100, counter := 2 }
      { method := "GET", url := "/ready" } 150).2.2.2
      [({ method := "GET", url := "/ready" }, 150), ({ method := "GET", url := "/ready" }, 160),
       ({ method := "GET", url := "/ready" }, 170)] (by decide)).2⟩

theorem serve_append (iso : Int → String) (st : State) (xs ys : List (Request × Int)) :
    serve iso st (xs ++ ys)
      = ((serve iso st xs).1 ++ (serve iso (serve iso st xs).2 ys).1,
         (serve iso (serve iso st xs).2 ys).2) := by
  induction xs generalizing st with
  | nil => rfl
  | cons r rest ih =>
    obtain ⟨req, now⟩ := r
    show serve iso st ((req, now) :: (rest ++ ys)) = _
    simp only [serve, ih, List.cons_append]

theorem serve_started (iso : Int → String) (st : State) (reqs : List (Request × Int)) :
    (serve iso st reqs).2.started = st.started := by
  induction reqs generalizing st with
  | nil => rfl
  | cons r rest ih =>
    obtain ⟨req, now⟩ := r
    simp only [serve]
    rw [ih, handler_started]

theorem uptimeOf_ready (iso : Int → String) (st : State) (m : String) (t : Int) :
    uptimeOf (handler iso st { method := m, url := "/ready" } t).1 = some (t - st.started) := by
  rw [handler_ready iso st { method := m, url := "/ready" } t rfl]
  simp [uptimeOf, field]

/-- C8, as the listener computes it. Two `/ready` requests of one process, the second
handled after the first with any requests in between, at clock readings `t1` and `t2`:
the two `uptime_ms` values are the integers `t1 - started` and `t2 - started`; when the
readings do not run backwards (`started ≤ t1 ≤ t2`) the first is non-negative and the
second is at least the first. -/
theorem ready_uptime_monotone (iso : Int → String) (st : State) (m1 m2 : String)
    (t1 t2 : Int) (between : List (Request × Int))
    (h1 : st.started ≤ t1) (h2 : t1 ≤ t2) :
    ∃ u1 u2 : Int,
      ((serve iso st (({ method := m1, url := "/ready" }, t1) :: between
          ++ [({ method := m2, url := "/ready" }, t2)])).1.head?).bind uptimeOf = some u1 ∧
      ((serve iso st (({ method := m1, url := "/ready" }, t1) :: between
          ++ [({ method := m2, url := "/ready" }, t2)])).1.getLast?).bind uptimeOf = some u2 ∧
      u1 = t1 - st.started ∧ u2 = t2 - st.started ∧ 0 ≤ u1 ∧ u1 ≤ u2 := by
  refine ⟨t1 - st.started, t2 - st.started, ?_, ?_, rfl, rfl, by omega, by omega⟩
  · simp only [List.cons_append, serve, List.head?_cons, Option.some_bind]
    exact uptimeOf_ready iso st m1 t1
  · rw [serve_append]
    simp only [serve, List.getLast?_append, List.getLast?_singleton, Option.or_some,
      Option.some_bind]
    rw [uptimeOf_ready, serve_started, handler_started]

/-- Witness of C8 as amended: start reading 1000, `/ready` at 1004, a greeting request,
`/ready` at 1010. -/
theorem ready_uptime_monotone_witness :
    ((1000 : Int) ≤ 1004 ∧ (1004 : Int) ≤ 1010) ∧
    ∃ u1 u2 : Int,
      ((serve (fun t => toString t) (initial 1000)
          (({ method := "GET", url := "/ready" }, 1004) ::
            [(({ method := "GET", url := "/" } : Request), (1007 : Int))]
            ++ [({ method := "GET", url := "/ready" }, 1010)])).1.head?).bind uptimeOf
        = some u1 ∧
      ((serve (fun t => toString t) (initial 1000)
          (({ method := "GET", url := "/ready" }, 1004) ::
            [(({ method := "GET", url := "/" } : Request), (1007 : Int))]
            ++ [({ method := "GET", url := "/ready" }, 1010)])).1.getLast?).bind uptimeOf
        = some u2 ∧
      u1 = 1004 - (initial 1000).started ∧ u2 = 1010 - (initial 1000).started ∧
      0 ≤ u1 ∧ u1 ≤ u2 :=
  ⟨⟨by decide, by decide⟩,
   ready_uptime_monotone (fun t => toString t) (initial 1000) "GET" "GET" 1004 1010
     [({ method := "GET", url := "/" }, 1007)] (by decide) (by decide)⟩

/-- C8 as stated fails: with start reading 1000 and the host clock read as 999 and then
998, two `/ready` requests in a row report `uptime_ms` -1 and -2: the first is negative
and the second is below the first. -/
theorem ready_uptime_counterexample :
    (serve (fun t => toString t) (initial 1000)
        [({ method := "GET", url := "/ready" }, 999),
         ({ method := "GET", url := "/ready" }, 998)]).1.map uptimeOf
      = [some (-1), some (-2)] ∧
    ¬ ((0 : Int) ≤ -1) ∧ ¬ ((-1 : Int) ≤ -2) := by
  decide

/-! ## Request targets with a query string -/

theorem question_mark_mem (p q : String) : Char.ofNat 63 ∈ (p ++ "?" ++ q).data := by
  simp only [String.data_append, List.mem_append]
  exact Or.inl (Or.inr (by decide))

theorem with_query_ne (p q lit : String) (h : Char.ofNat 63 ∉ lit.data) :
    p ++ "?" ++ q ≠ lit := by
  intro heq
  apply h
  rw [← heq]
  exact question_mark_mem p q

theorem handler_with_query (iso : Int → String) (st : State) (m p q : String) (now : Int) :
    handler iso st { method := m, url := p ++ "?" ++ q } now =
      ({ status := 404, headers := jsonHeaders, body := [("error", .str "not_found")] },
       st) :=
  handler_other iso st { method := m, url := p ++ "?" ++ q } now
    (with_query_ne p q "/ready" (by decide)) (with_query_ne p q "/" (by decide))
    (with_query_ne p q "/healthz" (by decide))

/-- C9, as the listener behaves. The whole request target is compared with the three
literals, query string included: a target `p?q` is always answered 404 `not_found`
with the state unchanged, and that is the status, and the outcome, of `p` alone
exactly when `p` is none of `/`, `/ready`, `/healthz`. -/
theorem query_string_is_part_of_target (iso : Int → String) (st : State) (m p q : String)
    (now : Int) :
    (handler iso st { method := m, url := p ++ "?" ++ q } now).1.status = 404 ∧
    (handler iso st { method := m, url := p ++ "?" ++ q } now).1.body
      = [("error", .str "not_found")] ∧
    (handler iso st { method := m, url := p ++ "?" ++ q } now).2 = st ∧
    ((handler iso st { method := m, url := p ++ "?" ++ q } now).1.status
        = (handler iso st { method := m, url := p } now).1.status
      ↔ p ≠ "/" ∧ p ≠ "/ready" ∧ p ≠ "/healthz") ∧
    (handler iso st { method := m, url := p ++ "?" ++ q } now
        = handler iso st { method := m, url := p } now
      ↔ p ≠ "/" ∧ p ≠ "/ready" ∧ p ≠ "/healthz") := by
  rw [handler_with_query]
  refine ⟨rfl, rfl, rfl, ?_, ?_⟩
  · constructor
    · intro hs
      refine ⟨?_, ?_, ?_⟩ <;> intro hp <;> subst hp
      · rw [handler_greeting iso st { method := m, url := "/" } now (Or.inl rfl)] at hs
        simp at hs
      · rw [handler_ready iso st { method := m, url := "/ready" } now rfl] at hs
        simp at hs
      · rw [handler_greeting iso st { method := m, url := "/healthz" } now (Or.inr rfl)] at hs
        simp at hs
    · rintro ⟨h1, h2, h3⟩
      rw [handler_other iso st { method := m, url := p } now h2 h1 h3]
  · constructor
    · intro hs
      have hst := congrArg (fun o : Response × State => o.1.status) hs
      simp only at hst
      refine ⟨?_, ?_, ?_⟩ <;> intro hp <;> subst hp
      · rw [handler_greeting iso st { method := m, url := "/" } now (Or.inl rfl)] at hst
        simp at hst
      · rw [handler_ready iso st { method := m, url := "/ready" } now rfl] at hst
        simp at hst
      · rw [handler_greeting iso st { method := m, url := "/healthz" } now (Or.inr rfl)] at hst
        simp at hst
    · rintro ⟨h1, h2, h3⟩
      rw [handler_other iso st { method := m, url := p } now h2 h1 h3]

/-- C9 as stated fails: the target `/?q` is answered 404 with the counter left at 0 where
`/` is answered 200 with the counter raised to 1, and `/ready?q` is answered 404 where
`/ready` is answered 200. -/
theorem query_string_counterexample :
    (handler (fun t => toString t) (initial 0) { method := "GET", url := "/" ++ "?" ++ "q" }
        5).1.status = 404 ∧
    (handler (fun t => toString t) (initial 0) { method := "GET", url := "/" } 5).1.status
      = 200 ∧
    (handler (fun t => toString t) (initial 0) { method := "GET", url := "/" ++ "?" ++ "q" }
        5).2.counter = 0 ∧
    (handler (fun t => toString t) (initial 0) { method := "GET", url := "/" } 5).2.counter
      = 1 ∧
    (handler (fun t => toString t) (initial 0)
        { method := "GET", url := "/ready" ++ "?" ++ "q" } 5).1.status = 404 ∧
    (handler (fun t => toString t) (initial 0) { method := "GET", url := "/ready" }
        5).1.status = 200 := by
  decide

/-! ## The end-to-end scenario -/

/-- C10, as the listener behaves. From a fresh process started at reading `t0`: `/` is
answered 200 with `counter` 1, `/healthz` with `counter` 2, `/ready` with status 200 and
`uptime_ms = t3 - t0`, which is positive when the reading `t3` is later than `t0`, and
`/unknown` with status 404 and body `{"error":"not_found"}`; the counter goes
0, 1, 2, 2, 2. -/
theorem end_to_end_scenario (iso : Int → String) (m1 m2 m3 m4 : String)
    (t0 t1 t2 t3 t4 : Int) (h : t0 < t3) :
    (serve iso (initial t0) (scenario m1 m2 m3 m4 t1 t2 t3 t4)).1.map (fun r => r.status)
      = [200, 200, 200, 404] ∧
    (serve iso (initial t0) (scenario m1 m2 m3 m4 t1 t2 t3 t4)).1.map counterOf
      = [some 1, some 2, none, none] ∧
    (serve iso (initial t0) (scenario m1 m2 m3 m4 t1 t2 t3 t4)).1.map uptimeOf
      = [none, none, some (t3 - t0), none] ∧
    0 < t3 - t0 ∧
    ((serve iso (initial t0) (scenario m1 m2 m3 m4 t1 t2 t3 t4)).1.getLast?).map
        (fun r => r.body) = some [("error", .str "not_found")] ∧
    ((serve iso (initial t0) (scenario m1 m2 m3 m4 t1 t2 t3 t4)).1.getLast?).bind
        (fun r => stringify r.body) = some "\x7b\"error\":\"not_found\"\x7d" ∧
    (states iso (initial t0) (scenario m1 m2 m3 m4 t1 t2 t3 t4)).map (fun s => s.counter)
      = [0, 1, 2, 2, 2] := by
  have i1 : incrementCounter (initial t0) = { started := t0, counter := 1 } := rfl
  have i2 : incrementCounter { started := t0, counter := 1 }
      = { started := t0, counter := 2 } := rfl
  have e1 := handler_greeting iso (initial t0) { method := m1, url := "/" } t1 (Or.inl rfl)
  have e2 := handler_greeting iso { started := t0, counter := 1 }
    { method := m2, url := "/healthz" } t2 (Or.inr rfl)
  have e3 := handler_ready iso
    { started := t0, counter := 2 } { method := m3, url := "/ready" } t3 rfl
  have e4 := handler_other iso
    { started := t0, counter := 2 } { method := m4, url := "/unknown" } t4
    (by simp) (by simp) (by simp)
  rw [i1] at e1
  rw [i2] at e2
  simp only [scenario, serve, states, e1, e2, e3, e4]
  refine ⟨rfl, ?_, ?_, by omega, rfl, ?_, rfl⟩
  · simp [counterOf, field]
  · simp [uptimeOf, field]
  · exact stringify_not_found

/-- Witness of C10 as amended: started at reading 1000, `/ready` handled at 1003. -/
theorem end_to_end_scenario_witness :
    (1000 : Int) < 1003 ∧
    (serve (fun t => toString t) (initial 1000)
        (scenario "GET" "GET" "GET" "GET" 1001 1002 1003 1004)).1.map counterOf
      = [some 1, some 2, none, none] ∧
    (serve (fun t => toString t) (initial 1000)
        (scenario "GET" "GET" "GET" "GET" 1001 1002 1003 1004)).1.map uptimeOf
      = [none, none, some (1003 - 1000), none] :=
  ⟨by decide,
   (end_to_end_scenario (fun t => toString t) "GET" "GET" "GET" "GET" 1000 1001 1002 1003
      1004 (by decide)).2.1,
   (end_to_end_scenario (fun t => toString t) "GET" "GET" "GET" "GET" 1000 1001 1002 1003
      1004 (by decide)).2.2.1⟩

/-- C10 as stated fails: when the scenario's `/ready` request is handled in the
millisecond the process started in (all readings 1000), the statuses, counters and the
404 body are as the scenario says, but `uptime_ms` is 0, which is not above 0. -/
theorem end_to_end_counterexample :
    (serve (fun t => toString t) (initial 1000)
        (scenario "GET" "GET" "GET" "GET" 1000 1000 1000 1000)).1.map uptimeOf
      = [none, none, some 0, none] ∧
    ¬ ((0 : Int) < 0) := by
  decide

end SampleNode
